import Mathlib

/-
Verification of the target_acquisition crew (src/3_crew/target_acquisition).

Shallow embedding of the two source files:
  * src/target_acquisition/crew.py  — pydantic output models, agent and task
    definitions, and the Crew factory (TargetAcquisition.crew).
  * src/target_acquisition/main.py  — the run() entry point: input mapping,
    kickoff dispatch with AttributeError fallback, and result rendering.

Every definition below is translated from the source; the two definitions
whose doc comments start with "Modelled from the spec:" embed behavior of
the crewai library (not part of this repository) as the spec describes it.
-/

namespace TargetAcq

/-! ## Tools, schemas, agents (crew.py lines 94-141) -/

/-- The single external tool used by the crew: crewai_tools.SerperDevTool,
the web-search tool (crew.py line 7). -/
inductive ToolRef
  | serperDevTool
deriving DecidableEq, BEq

/-- The pydantic output models declared in crew.py lines 17-88, one per task. -/
inductive SchemaRef
  | marketDynamicsReport
  | hptCriteria
  | prospectList
  | prospectResearchList
  | hptList
  | engagementBriefs
  | assessmentReport
deriving DecidableEq, BEq

/-- One crewai Agent construction. `name` is the agents.yaml config key the
Agent is built from; `tools`, `allowDelegationArg` and `memoryArg` record
exactly the keyword arguments passed at the construction site (none when the
source omits the keyword, so the library default applies). -/
structure AgentDef where
  name : String
  tools : List ToolRef
  allowDelegationArg : Option Bool
  memoryArg : Option Bool
deriving DecidableEq, BEq

/-- crew.py lines 105-108. -/
def market_dynamics_agent : AgentDef :=
  { name := "market_dynamics_agent", tools := [ToolRef.serperDevTool],
    allowDelegationArg := none, memoryArg := none }

/-- crew.py lines 110-112. -/
def hpt_definition_agent : AgentDef :=
  { name := "hpt_definition_agent", tools := [],
    allowDelegationArg := none, memoryArg := none }

/-- crew.py lines 114-117 (passes memory=True). -/
def prospect_discovery_agent : AgentDef :=
  { name := "prospect_discovery_agent", tools := [ToolRef.serperDevTool],
    allowDelegationArg := none, memoryArg := some true }

/-- crew.py lines 119-122. -/
def prospect_intelligence_agent : AgentDef :=
  { name := "prospect_intelligence_agent", tools := [ToolRef.serperDevTool],
    allowDelegationArg := none, memoryArg := none }

/-- crew.py lines 124-126. -/
def hpt_prioritization_agent : AgentDef :=
  { name := "hpt_prioritization_agent", tools := [],
    allowDelegationArg := none, memoryArg := none }

/-- crew.py lines 128-130. -/
def engagement_preparation_agent : AgentDef :=
  { name := "engagement_preparation_agent", tools := [],
    allowDelegationArg := none, memoryArg := none }

/-- crew.py lines 132-134. -/
def assessment_agent : AgentDef :=
  { name := "assessment_agent", tools := [],
    allowDelegationArg := none, memoryArg := none }

/-- crew.py lines 136-140 (passes allow_delegation=True). -/
def targeting_manager : AgentDef :=
  { name := "targeting_manager", tools := [],
    allowDelegationArg := some true, memoryArg := none }

/-- The agents collected by the @agent decorators of TargetAcquisition, in
declaration order (crew.py lines 105-140); this is the `self.agents` list the
crew factory passes as `agents=` (crew.py line 207). -/
def crewAgents : List AgentDef :=
  [market_dynamics_agent, hpt_definition_agent, prospect_discovery_agent,
   prospect_intelligence_agent, hpt_prioritization_agent,
   engagement_preparation_agent, assessment_agent, targeting_manager]

/-- The separate manager Agent built inside the crew factory from the
targeting_manager config with allow_delegation=True (crew.py lines 201-204). -/
def managerAgent : AgentDef :=
  { name := "targeting_manager", tools := [],
    allowDelegationArg := some true, memoryArg := none }

/-! ## Tasks (crew.py lines 145-192) -/

/-- One crewai Task construction: the tasks.yaml config key and the
output_pydantic keyword argument (none would mean the keyword was omitted;
every task in this crew passes one). -/
structure TaskDef where
  name : String
  outputPydantic : Option SchemaRef
deriving DecidableEq, BEq

/-- crew.py lines 145-150. -/
def analyze_market_dynamics : TaskDef :=
  { name := "analyze_market_dynamics",
    outputPydantic := some SchemaRef.marketDynamicsReport }

/-- crew.py lines 152-157. -/
def define_hpt_criteria : TaskDef :=
  { name := "define_hpt_criteria", outputPydantic := some SchemaRef.hptCriteria }

/-- crew.py lines 159-164. -/
def discover_prospects : TaskDef :=
  { name := "discover_prospects", outputPydantic := some SchemaRef.prospectList }

/-- crew.py lines 166-171. -/
def research_prospects : TaskDef :=
  { name := "research_prospects",
    outputPydantic := some SchemaRef.prospectResearchList }

/-- crew.py lines 173-178. -/
def prioritize_hpts : TaskDef :=
  { name := "prioritize_hpts", outputPydantic := some SchemaRef.hptList }

/-- crew.py lines 180-185. -/
def prepare_engagement : TaskDef :=
  { name := "prepare_engagement", outputPydantic := some SchemaRef.engagementBriefs }

/-- crew.py lines 187-192. -/
def assess_targeting_effectiveness : TaskDef :=
  { name := "assess_targeting_effectiveness",
    outputPydantic := some SchemaRef.assessmentReport }

/-- The tasks collected by the @task decorators, in declaration order
(crew.py lines 145-192); this is the `self.tasks` list the crew factory
passes as `tasks=` (crew.py line 208). -/
def crewTasks : List TaskDef :=
  [analyze_market_dynamics, define_hpt_criteria, discover_prospects,
   research_prospects, prioritize_hpts, prepare_engagement,
   assess_targeting_effectiveness]

/-! ## Memory stores and the Crew (crew.py lines 197-241) -/

/-- An embedder_config dict as passed to RAGStorage (crew.py lines 222-225
and 233-236): provider and the model under "config". -/
structure EmbedderConfig where
  provider : String
  model : String
deriving DecidableEq, BEq

/-- The embedder configuration both RAGStorage constructions pass. -/
def openaiEmbedder : EmbedderConfig :=
  { provider := "openai", model := "text-embedding-3-small" }

/-- A memory storage construction: either crewai's LTMSQLiteStorage with its
db_path, or RAGStorage with embedder config, type string and path. -/
inductive StorageDef
  | ltmSqlite (dbPath : String)
  | rag (embedder : EmbedderConfig) (type : String) (path : String)
deriving DecidableEq, BEq

/-- Storage of the LongTermMemory (crew.py lines 214-218). -/
def ltmStorage : StorageDef :=
  StorageDef.ltmSqlite "./memory/long_term_memory_storage.db"

/-- Storage of the ShortTermMemory (crew.py lines 220-229): RAG storage of
type "short_term" at path "./memory/". -/
def stmStorage : StorageDef :=
  StorageDef.rag openaiEmbedder "short_term" "./memory/"

/-- Storage of the EntityMemory (crew.py lines 231-240): the source passes
type="short_term" (not an entity-specific type) and the same path and
embedder configuration as the short-term store. -/
def entityMemStorage : StorageDef :=
  StorageDef.rag openaiEmbedder "short_term" "./memory/"

/-- A memory wrapper passed to the Crew: LongTermMemory, ShortTermMemory or
EntityMemory, each around its storage. -/
inductive MemoryDef
  | longTerm (storage : StorageDef)
  | shortTerm (storage : StorageDef)
  | entity (storage : StorageDef)
deriving DecidableEq, BEq

/-- The storage a memory wrapper was constructed with. -/
def MemoryDef.storage : MemoryDef → StorageDef
  | MemoryDef.longTerm s => s
  | MemoryDef.shortTerm s => s
  | MemoryDef.entity s => s

/-- crewai Process values used by this repository. -/
inductive ProcessKind
  | sequential
  | hierarchical
deriving DecidableEq, BEq

/-- The keyword arguments of the Crew(...) construction (crew.py lines
206-241). -/
structure CrewDef where
  agents : List AgentDef
  tasks : List TaskDef
  process : ProcessKind
  verbose : Bool
  managerAgent : Option AgentDef
  memory : Bool
  longTermMemory : Option MemoryDef
  shortTermMemory : Option MemoryDef
  entityMemory : Option MemoryDef

/-- The Crew instance returned by TargetAcquisition.crew (crew.py lines
197-241). -/
def crewDef : CrewDef :=
  { agents := crewAgents,
    tasks := crewTasks,
    process := ProcessKind.hierarchical,
    verbose := true,
    managerAgent := some managerAgent,
    memory := true,
    longTermMemory := some (MemoryDef.longTerm ltmStorage),
    shortTermMemory := some (MemoryDef.shortTerm stmStorage),
    entityMemory := some (MemoryDef.entity entityMemStorage) }

/-- Modelled from the spec: the persistence behavior of the crewai library's
LTMSQLiteStorage (library code, not part of this repository's sources).
Per the spec, "Durable-scope appends are persisted immediately
(write-through)" and durable records "persist across sessions": the store
holds records already persisted to the SQLite database file plus any
in-process buffer, a save writes straight through to the persisted part,
and a process restart loses only the buffer. -/
structure DurableStore where
  persisted : List String
  buffered : List String
deriving DecidableEq

/-- Modelled from the spec: saving a record to the durable store is
write-through, appending it directly to the persisted database contents. -/
def durableAppend (s : DurableStore) (r : String) : DurableStore :=
  { persisted := s.persisted ++ [r], buffered := s.buffered }

/-- A process restart keeps the SQLite database file but loses any
in-process buffer. -/
def processRestart (s : DurableStore) : DurableStore :=
  { persisted := s.persisted, buffered := [] }

/-- The records visible to a durable-scope query: everything persisted plus
anything still buffered in-process. -/
def durableLoad (s : DurableStore) : List String :=
  s.persisted ++ s.buffered

/-! ## Pydantic validation of the prioritize_hpts output (crew.py lines 62-70)

HPTEntry declares: name : str, rank : int, confidence : float,
rationale : str.  Every Field(...) call passes only a description; in
particular the confidence field carries no ge/le (range) constraint, so the
validator below — translated from those declarations — checks presence and
type of each field and nothing else. -/

/-- A JSON-like value, the raw material pydantic validates. -/
inductive JValue
  | jstr (s : String)
  | jint (n : Int)
  | jfloat (q : ℚ)
  | jlist (xs : List JValue)
  | jdict (fields : List (String × JValue))
  | jnull

/-- Look a key up in a JSON object's field list (first match). -/
def jlookup (fields : List (String × JValue)) (k : String) : Option JValue :=
  match fields with
  | [] => none
  | (k2, v) :: rest => if k2 == k then some v else jlookup rest k

/-- Pydantic accepts an int where a float is declared (numeric coercion);
a float field check only requires a numeric value. -/
def isNumeric : JValue → Bool
  | JValue.jfloat _ => true
  | JValue.jint _ => true
  | _ => false

/-- Validation of one HPTEntry (crew.py lines 62-66): each of the four
required fields must be present with the declared type.  The confidence
field is declared `confidence: float = Field(description=...)` with no
numeric constraint, so no range check occurs here. -/
def validateHPTEntry (j : JValue) : Bool :=
  match j with
  | JValue.jdict fields =>
      (match jlookup fields "name" with
       | some (JValue.jstr _) => true
       | _ => false) &&
      (match jlookup fields "rank" with
       | some (JValue.jint _) => true
       | _ => false) &&
      (match jlookup fields "confidence" with
       | some v => isNumeric v
       | none => false) &&
      (match jlookup fields "rationale" with
       | some (JValue.jstr _) => true
       | _ => false)
  | _ => false

/-- Validation of an HPTList (crew.py lines 69-70): a dict whose "hpts"
field is a list of valid HPTEntry values. -/
def validateHPTList (j : JValue) : Bool :=
  match j with
  | JValue.jdict fields =>
      match jlookup fields "hpts" with
      | some (JValue.jlist xs) => xs.all validateHPTEntry
      | _ => false
  | _ => false

/-- The confidence value of an HPTEntry-shaped JSON object, when it is a
float. -/
def entryConfidence (j : JValue) : Option ℚ :=
  match j with
  | JValue.jdict fields =>
      match jlookup fields "confidence" with
      | some (JValue.jfloat q) => some q
      | _ => none
  | _ => none

/-- A prioritize_hpts output whose single entry has confidence 3/2, outside
[0, 1]. -/
def outOfRangeEntry : JValue :=
  JValue.jdict
    [("name", JValue.jstr "Acme Marine"), ("rank", JValue.jint 1),
     ("confidence", JValue.jfloat (3 / 2)), ("rationale", JValue.jstr "top fit")]

/-- The HPTList output wrapping `outOfRangeEntry`. -/
def outOfRangeOutput : JValue :=
  JValue.jdict [("hpts", JValue.jlist [outOfRangeEntry])]

/-! ## The run() entry point (main.py lines 13-54) -/

/-- A Python value as it appears in the inputs dict: a string, or the
datetime.now() object before str() is applied to it. -/
inductive PyVal
  | str (s : String)
  | datetime (t : Nat)
deriving DecidableEq

/-- Whether a PyVal is a string. -/
def PyVal.isStr : PyVal → Bool
  | PyVal.str _ => true
  | _ => false

/-- str(v): the str() builtin applied to a value; a datetime renders to its
textual form. -/
def pyStr : PyVal → PyVal
  | PyVal.str s => PyVal.str s
  | PyVal.datetime t => PyVal.str (toString t)

/-- os.environ.get(key, default): the environment value when the variable is
set, the default otherwise. -/
def envGet (env : String → Option String) (key dflt : String) : String :=
  (env key).getD dflt

/-- The inputs dict built by run() (main.py lines 23-29): four
environment-backed string entries plus current_date = str(datetime.now()). -/
def runInputs (env : String → Option String) (now : Nat) : List (String × PyVal) :=
  [("industry",
    PyVal.str (envGet env "TA_INDUSTRY"
      "Marine Engineering and Industrial Manufacturing")),
   ("sector",
    PyVal.str (envGet env "TA_SECTOR" "Marine propulsion and thruster systems")),
   ("geography",
    PyVal.str (envGet env "TA_GEOGRAPHY" "Europe and Asia-Pacific")),
   ("time_horizon", PyVal.str (envGet env "TA_TIME_HORIZON" "12-24 months")),
   ("current_date", pyStr (PyVal.datetime now))]

/-- A Python exception as run() distinguishes them: AttributeError versus
anything else. -/
inductive PyExc
  | attributeError
  | other (name : String)
deriving DecidableEq

/-- The crew object's interface as main.py uses it: a kickoff method that
may raise, and possibly run/start methods (hasRun/hasStart model the
hasattr checks). -/
structure CrewIface (R : Type) where
  kickoff : List (String × PyVal) → Except PyExc R
  hasRun : Bool
  run : List (String × PyVal) → Except PyExc R
  hasStart : Bool
  start : List (String × PyVal) → Except PyExc R

/-- The try/except dispatch of run() (main.py lines 34-43): call
kickoff(inputs=...); on AttributeError fall back to run(inputs=...) when
the crew has it, else start(inputs=...) when it has that, else re-raise;
any other exception propagates unchanged. -/
def runDispatch {R : Type} (c : CrewIface R) (inputs : List (String × PyVal)) :
    Except PyExc R :=
  match c.kickoff inputs with
  | Except.ok r => Except.ok r
  | Except.error PyExc.attributeError =>
      if c.hasRun then c.run inputs
      else if c.hasStart then c.start inputs
      else Except.error PyExc.attributeError
  | Except.error e => Except.error e

/-- The whole entry point up to the dispatch (main.py lines 23-43): build
the inputs dict once, then dispatch it to the crew. -/
def mainRun (env : String → Option String) (now : Nat) {R : Type}
    (c : CrewIface R) : Except PyExc R :=
  runDispatch c (runInputs env now)

/-- The result object as main.py inspects it: hasattr(result, "raw") and
hasattr(result, "output") become the two options; `objRepr` is the
fallback textual representation of the object. -/
structure CrewResult where
  raw : Option String
  output : Option String
  objRepr : String

/-- The rendering run() prints (main.py lines 48-54): result.raw when
present, else result.output when present, else the object representation. -/
def renderResult (r : CrewResult) : String :=
  match r.raw with
  | some s => s
  | none =>
      match r.output with
      | some s => s
      | none => r.objRepr

/-! ## Concrete fixtures used by witness theorems -/

/-- A result object carrying a raw attribute. -/
def resWithRaw : CrewResult :=
  { raw := some "final artifact", output := none, objRepr := "CrewOutput(...)" }

/-- A result object with no raw attribute but an output attribute. -/
def resWithOutput : CrewResult :=
  { raw := none, output := some "output text", objRepr := "CrewOutput(...)" }

/-- A result object with neither raw nor output attribute. -/
def resPlain : CrewResult :=
  { raw := none, output := none, objRepr := "CrewOutput(...)" }

/-- A crew object whose kickoff raises AttributeError and which has a run
method. -/
def crewWithRun : CrewIface Nat :=
  { kickoff := fun _ => Except.error PyExc.attributeError,
    hasRun := true, run := fun _ => Except.ok 7,
    hasStart := false, start := fun _ => Except.ok 0 }

/-- A crew object whose kickoff raises a non-AttributeError exception even
though fallback methods exist. -/
def crewWithTypeError : CrewIface Nat :=
  { kickoff := fun _ => Except.error (PyExc.other "TypeError"),
    hasRun := true, run := fun _ => Except.ok 7,
    hasStart := true, start := fun _ => Except.ok 0 }

/-! ## Claim theorems -/

/-- C1: every task constructed by the crew — all seven of
analyze_market_dynamics, define_hpt_criteria, discover_prospects,
research_prospects, prioritize_hpts, prepare_engagement,
assess_targeting_effectiveness — is bound to a declared output schema via
output_pydantic, so each task result is subject to schema validation. -/
theorem c1_every_task_has_output_schema :
    crewTasks.map TaskDef.name =
      ["analyze_market_dynamics", "define_hpt_criteria", "discover_prospects",
       "research_prospects", "prioritize_hpts", "prepare_engagement",
       "assess_targeting_effectiveness"] ∧
    (crewTasks.all fun t => t.outputPydantic.isSome) = true ∧
    crewTasks.map TaskDef.outputPydantic =
      [some SchemaRef.marketDynamicsReport, some SchemaRef.hptCriteria,
       some SchemaRef.prospectList, some SchemaRef.prospectResearchList,
       some SchemaRef.hptList, some SchemaRef.engagementBriefs,
       some SchemaRef.assessmentReport] :=
  ⟨rfl, rfl, rfl⟩

/-- C2: contrary to the claim, schema validation of the prioritize_hpts
output does NOT reject a confidence outside [0.0, 1.0]: the HPTEntry
confidence field is a plain float whose Field(...) carries only a
description, so an output whose confidence is 3/2 > 1 passes validation. -/
theorem c2_confidence_not_range_checked :
    validateHPTList outOfRangeOutput = true ∧
    entryConfidence outOfRangeEntry = some (3 / 2 : ℚ) ∧
    (1 : ℚ) < 3 / 2 := by
  refine ⟨rfl, rfl, ?_⟩
  norm_num

/-- C3: among the agents instantiated by the crew, only the
targeting_manager role is constructed with allow_delegation=True; the seven
other roles are constructed without that keyword, and the distinguished
manager Agent built inside the crew factory also carries it. -/
theorem c3_delegation_only_targeting_manager :
    ((crewAgents.filter fun a => a.allowDelegationArg == some true).map
      AgentDef.name) = ["targeting_manager"] ∧
    ((crewAgents.filter fun a => a.name != "targeting_manager").all
      fun a => a.allowDelegationArg == none) = true ∧
    (crewAgents.filter fun a => a.name != "targeting_manager").length = 7 ∧
    crewDef.managerAgent = some managerAgent ∧
    managerAgent.allowDelegationArg = some true :=
  ⟨rfl, rfl, rfl, rfl, rfl⟩

/-- C4: the crew is constructed with Process.hierarchical (not the static
sequential process) and a distinguished manager agent built from the
targeting_manager config, so task dispatch is decided by the manager role
at runtime. -/
theorem c4_hierarchical_with_manager :
    crewDef.process = ProcessKind.hierarchical ∧
    (crewDef.process == ProcessKind.sequential) = false ∧
    crewDef.managerAgent = some managerAgent ∧
    managerAgent.name = "targeting_manager" :=
  ⟨rfl, rfl, rfl, rfl⟩

/-- C5: the crew wires exactly the three memory scopes with memory enabled:
a durable LongTermMemory on SQLite storage at the fixed path
./memory/long_term_memory_storage.db, a session-scoped ShortTermMemory on
RAG (vector-similarity) storage, and an EntityMemory; and, per the
spec-modelled write-through semantics of the durable store, an appended
record is persisted immediately and survives a process restart. -/
theorem c5_three_memory_stores :
    crewDef.memory = true ∧
    crewDef.longTermMemory =
      some (MemoryDef.longTerm
        (StorageDef.ltmSqlite "./memory/long_term_memory_storage.db")) ∧
    crewDef.shortTermMemory =
      some (MemoryDef.shortTerm
        (StorageDef.rag openaiEmbedder "short_term" "./memory/")) ∧
    crewDef.entityMemory = some (MemoryDef.entity entityMemStorage) ∧
    (∀ (s : DurableStore) (r : String),
      (durableAppend s r).persisted = s.persisted ++ [r]) ∧
    (∀ (s : DurableStore) (r : String),
      durableLoad (processRestart (durableAppend s r)) = s.persisted ++ [r]) :=
  ⟨rfl, rfl, rfl, rfl, fun _ _ => rfl,
   fun s r => by simp [durableLoad, processRestart, durableAppend]⟩

/-- C6: run() renders the final result by printing its raw attribute when
present, otherwise its output attribute, otherwise the object
representation; and the last-declared task is assess_targeting_effectiveness
with declared schema AssessmentReport. -/
theorem c6_final_result_rendering :
    (∀ (r : CrewResult) (s : String), r.raw = some s → renderResult r = s) ∧
    (∀ (r : CrewResult) (s : String),
      r.raw = none → r.output = some s → renderResult r = s) ∧
    (∀ r : CrewResult,
      r.raw = none → r.output = none → renderResult r = r.objRepr) ∧
    crewTasks.getLast? = some assess_targeting_effectiveness ∧
    assess_targeting_effectiveness.outputPydantic =
      some SchemaRef.assessmentReport := by
  refine ⟨?_, ?_, ?_, rfl, rfl⟩
  · intro r s h
    simp [renderResult, h]
  · intro r s h1 h2
    simp [renderResult, h1, h2]
  · intro r h1 h2
    simp [renderResult, h1, h2]

/-- Witness for C6 at three concrete result objects, one per rendering
branch. -/
theorem c6_final_result_rendering_witness :
    renderResult resWithRaw = "final artifact" ∧
    renderResult resWithOutput = "output text" ∧
    renderResult resPlain = "CrewOutput(...)" :=
  ⟨c6_final_result_rendering.1 resWithRaw "final artifact" rfl,
   c6_final_result_rendering.2.1 resWithOutput "output text" rfl rfl,
   c6_final_result_rendering.2.2.1 resPlain rfl rfl⟩

/-- C7: run() builds the session inputs as a mapping with exactly the keys
industry, sector, geography, time_horizon and the implicit current_date,
every value a string (current_date via str(datetime.now())), and passes
this one mapping to the crew dispatch at session start. -/
theorem c7_run_inputs_string_mapping (env : String → Option String) (now : Nat) :
    (runInputs env now).map Prod.fst =
      ["industry", "sector", "geography", "time_horizon", "current_date"] ∧
    ((runInputs env now).all fun kv => kv.2.isStr) = true ∧
    (∀ (R : Type) (c : CrewIface R),
      mainRun env now c = runDispatch c (runInputs env now)) :=
  ⟨rfl, rfl, fun _ _ => rfl⟩

/-- C8: the SerperDevTool search tool is bound exactly to
market_dynamics_agent, prospect_discovery_agent and
prospect_intelligence_agent; the five other roles, and the manager Agent,
are constructed with no search tool. -/
theorem c8_search_tool_binding :
    ((crewAgents.filter fun a => a.tools.contains ToolRef.serperDevTool).map
      AgentDef.name) =
      ["market_dynamics_agent", "prospect_discovery_agent",
       "prospect_intelligence_agent"] ∧
    ((crewAgents.filter fun a => !a.tools.contains ToolRef.serperDevTool).map
      AgentDef.name) =
      ["hpt_definition_agent", "hpt_prioritization_agent",
       "engagement_preparation_agent", "assessment_agent",
       "targeting_manager"] ∧
    managerAgent.tools = [] :=
  ⟨rfl, rfl, rfl⟩

/-- C9: when kickoff(inputs=...) raises AttributeError, run() falls back to
run(inputs=...) when the crew has that attribute, else to
start(inputs=...) when it has that one, and re-raises the AttributeError
when it has neither; an exception other than AttributeError propagates
unchanged, and a successful kickoff needs no fallback. -/
theorem c9_kickoff_fallback (R : Type) (c : CrewIface R)
    (inputs : List (String × PyVal)) :
    (c.kickoff inputs = Except.error PyExc.attributeError →
      ((c.hasRun = true → runDispatch c inputs = c.run inputs) ∧
       (c.hasRun = false → c.hasStart = true →
         runDispatch c inputs = c.start inputs) ∧
       (c.hasRun = false → c.hasStart = false →
         runDispatch c inputs = Except.error PyExc.attributeError))) ∧
    (∀ e : PyExc, c.kickoff inputs = Except.error e →
      e ≠ PyExc.attributeError → runDispatch c inputs = Except.error e) ∧
    (∀ r : R, c.kickoff inputs = Except.ok r →
      runDispatch c inputs = Except.ok r) := by
  refine ⟨?_, ?_, ?_⟩
  · intro hk
    refine ⟨?_, ?_, ?_⟩
    · intro hr
      simp [runDispatch, hk, hr]
    · intro hr hs
      simp [runDispatch, hk, hr, hs]
    · intro hr hs
      simp [runDispatch, hk, hr, hs]
  · intro e hk hne
    cases e with
    | attributeError => exact absurd rfl hne
    | other name => simp [runDispatch, hk]
  · intro r hk
    simp [runDispatch, hk]

/-- Witness for C9: the run-method fallback fires on a crew whose kickoff
raises AttributeError, and a TypeError from kickoff propagates unchanged
even though fallback methods exist. -/
theorem c9_kickoff_fallback_witness :
    runDispatch crewWithRun [] = Except.ok 7 ∧
    runDispatch crewWithTypeError [] = Except.error (PyExc.other "TypeError") := by
  constructor
  · have h := ((c9_kickoff_fallback Nat crewWithRun []).1 rfl).1 rfl
    exact h.trans rfl
  · exact (c9_kickoff_fallback Nat crewWithTypeError []).2.1
      (PyExc.other "TypeError") rfl (by decide)

/-- C10: the EntityMemory is configured with the same backing storage
configuration as the ShortTermMemory: a RAG storage of type "short_term"
(not an entity-specific type), path "./memory/", and the same openai
embedder configuration. -/
theorem c10_entity_storage_matches_short_term :
    entityMemStorage = stmStorage ∧
    entityMemStorage = StorageDef.rag openaiEmbedder "short_term" "./memory/" ∧
    (crewDef.entityMemory.map MemoryDef.storage) =
      (crewDef.shortTermMemory.map MemoryDef.storage) :=
  ⟨rfl, rfl, rfl⟩

end TargetAcq
